import Mathlib

/-!
Shallow embedding of the booking-enquiry request handlers:
`src/api/stripe-config.js` (the ConfigHandler) and `src/api/send-booking.js`
(the BookingHandler; that file holds two handler variants, embedded here as
`handler` and `handler2`).

JavaScript values reaching the handlers are modelled by `JSVal`; numbers are
restricted to integers (plus an explicit NaN constructor), which covers every
value the handlers' integer-only deposit/amount paths distinguish.
External collaborators (the Stripe client, the mail transporter, `JSON.parse`)
are modelled as oracle inputs: the handlers are deterministic functions of the
request, the environment-derived configuration and those oracles, and they
additionally return a `Trace` recording which collaborators were invoked.
-/

/-- A JavaScript value as seen by the handlers. Numbers are modelled as
integers, with NaN explicit; this is faithful for every code path the
handlers take on integer inputs. -/
inductive JSVal where
  | vUndefined
  | vNull
  | vBool (b : Bool)
  | vNum (n : Int)
  | vNaN
  | vStr (s : String)
deriving DecidableEq, Repr

namespace JSVal

/-- JavaScript truthiness: `undefined`, `null`, `false`, `0`, `NaN`, `""`
are falsy, everything else truthy. -/
def truthy : JSVal → Bool
  | vUndefined => false
  | vNull => false
  | vBool b => b
  | vNum n => n != 0
  | vNaN => false
  | vStr s => s != ""

/-- The JavaScript `String()` coercion. -/
def jsToString : JSVal → String
  | vUndefined => "undefined"
  | vNull => "null"
  | vBool true => "true"
  | vBool false => "false"
  | vNum n => toString n
  | vNaN => "NaN"
  | vStr s => s

end JSVal

/-! ## Configuration resolver

`stripe-config.js` lines 1-5 and `send-booking.js` lines 4-10 read raw
environment strings. An environment variable is `Option String`
(`none` = unset). -/

/-- `process.env.X || ''`: an unset variable reads as the empty string. -/
def envOrEmpty (e : Option String) : String := e.getD ""

/-- JavaScript `String.prototype.trim`, modelled on the character list
(whitespace per `Char.isWhitespace`). -/
def jsTrim (s : String) : String :=
  String.mk (((s.data.dropWhile Char.isWhitespace).reverse.dropWhile
    Char.isWhitespace).reverse)

/-- JavaScript `String.prototype.toLowerCase` (per-character lowering
suffices for the ASCII settings the handlers read). -/
def jsToLower (s : String) : String := String.mk (s.data.map Char.toLower)

/-- Leading decimal digits of a character list. -/
def leadingDigits (cs : List Char) : List Char := cs.takeWhile Char.isDigit

/-- Value of a list of decimal digits. -/
def digitsVal (cs : List Char) : Nat :=
  cs.foldl (fun a c => a * 10 + (c.toNat - 48)) 0

/-- `Number.parseInt(s, 10)`: trim whitespace, optional sign, then the
longest prefix of decimal digits; no digits means NaN (`none`).
Trailing non-digit characters are ignored, as in JavaScript. -/
def jsParseInt (s : String) : Option Int :=
  match (jsTrim s).toList with
  | '-' :: rest =>
      if (leadingDigits rest).isEmpty then none
      else some (-(digitsVal (leadingDigits rest) : Int))
  | '+' :: rest =>
      if (leadingDigits rest).isEmpty then none
      else some (digitsVal (leadingDigits rest) : Int)
  | cs =>
      if (leadingDigits cs).isEmpty then none
      else some (digitsVal (leadingDigits cs) : Int)

/-- `Number.parseInt(process.env.STRIPE_DEPOSIT_AMOUNT, 10)`: an unset
variable is coerced to the string `"undefined"` first, so it parses to NaN. -/
def depositAmount (depositEnv : Option String) : Option Int :=
  jsParseInt (match depositEnv with | some s => s | none => "undefined")

/-- `Number.isFinite(depositAmount) && depositAmount > 0 ? depositAmount : 0`
(`stripe-config.js` line 5, `send-booking.js` line 9). -/
def normalizedDeposit (depositEnv : Option String) : Int :=
  match depositAmount depositEnv with
  | some d => if d > 0 then d else 0
  | none => 0

/-- `const stripeSecretKey = process.env.STRIPE_SECRET_KEY || ''`. -/
def stripeSecretKey (secretEnv : Option String) : String := envOrEmpty secretEnv

/-- The Stripe client is constructed exactly when the secret key is a
non-empty string (`send-booking.js` line 5). -/
def stripePresent (secretEnv : Option String) : Bool :=
  stripeSecretKey secretEnv != ""

/-- `const publishableKey = process.env.STRIPE_PUBLISHABLE_KEY || ''`
(`stripe-config.js` line 2). -/
def publishableKey (pubEnv : Option String) : String := envOrEmpty pubEnv

/-- `paymentRequired` as the BookingHandler computes it
(`send-booking.js` line 10): `Boolean(stripe && normalizedDeposit > 0)`. -/
def bookingPaymentRequired (secretEnv depositEnv : Option String) : Bool :=
  stripePresent secretEnv && normalizedDeposit depositEnv > 0

/-- `paymentRequired` as the ConfigHandler computes it
(`stripe-config.js` line 16):
`Boolean(publishableKey && stripeSecretKey && normalizedDeposit > 0)`. -/
def configPaymentRequired (pubEnv secretEnv depositEnv : Option String) : Bool :=
  publishableKey pubEnv != "" && stripeSecretKey secretEnv != "" &&
    normalizedDeposit depositEnv > 0

/-! ## Booking payload

The JSON body's fields as the BookingHandler reads them; a field absent from
the JSON object reads as `undefined`. -/

structure Payload where
  name : JSVal := JSVal.vUndefined
  email : JSVal := JSVal.vUndefined
  phone : JSVal := JSVal.vUndefined
  checkIn : JSVal := JSVal.vUndefined
  checkOut : JSVal := JSVal.vUndefined
  guests : JSVal := JSVal.vUndefined
  message : JSVal := JSVal.vUndefined
  action : JSVal := JSVal.vUndefined
  paymentIntentId : JSVal := JSVal.vUndefined
  paymentStatus : JSVal := JSVal.vUndefined
  amount : JSVal := JSVal.vUndefined
  currency : JSVal := JSVal.vUndefined
deriving DecidableEq, Repr

/-- Dynamic field access `payload[field]` for the fields the validator
iterates over. -/
def Payload.get (p : Payload) : String → JSVal
  | "name" => p.name
  | "email" => p.email
  | "phone" => p.phone
  | "checkIn" => p.checkIn
  | "checkOut" => p.checkOut
  | "guests" => p.guests
  | "message" => p.message
  | _ => JSVal.vUndefined

/-- The payload an empty JSON object parses to: every field `undefined`. -/
def emptyPayload : Payload := {}

/-! ## Validator (`send-booking.js` lines 86-94) -/

/-- `const requiredFields = ['name','email','phone','checkIn','checkOut','guests']`. -/
def requiredFields : List String :=
  ["name", "email", "phone", "checkIn", "checkOut", "guests"]

/-- `requiredFields.filter(field => !payload[field] || String(payload[field]).trim() === '')`. -/
def missingFields (p : Payload) : List String :=
  requiredFields.filter
    (fun f => !(p.get f).truthy || (jsTrim (p.get f).jsToString == ""))

/-- `validateBooking`: throws an error with `statusCode = 400` naming every
missing field, or returns normally. -/
def validateBooking (p : Payload) : Except (Nat × String) Unit :=
  if (missingFields p).isEmpty then Except.ok ()
  else Except.error
    (400, "Missing required fields: " ++ String.intercalate ", " (missingFields p))

/-! ## External collaborators as oracles -/

/-- The fields of a Stripe payment intent the submit flow reads back. -/
structure CreatedIntent where
  client_secret : String
  id : String
  amount : Int
  currency : String
deriving DecidableEq, Repr

/-- The fields of a retrieved payment intent the confirm flow reads. -/
structure RetrievedIntent where
  id : String
  status : String
deriving DecidableEq, Repr

/-- Outcomes the external collaborators would produce if invoked during this
request: `Except.error` models the library call throwing. -/
structure World where
  createResult : Except Unit CreatedIntent
  retrieveResult : Except Unit RetrievedIntent
  mailResult : Except Unit Unit
deriving Repr

/-- Environment-derived configuration shared by both flows of the
BookingHandler. `canSendMail` abbreviates the conjunction of mail settings
(`send-booking.js` lines 30-36) deciding whether a transporter exists. -/
structure Config where
  secretEnv : Option String
  pubEnv : Option String
  depositEnv : Option String
  canSendMail : Bool
deriving DecidableEq, Repr

/-- `paymentRequired` of a `Config`, as module initialisation computes it. -/
def Config.paymentRequired (cfg : Config) : Bool :=
  bookingPaymentRequired cfg.secretEnv cfg.depositEnv

/-! ## Responses and invocation traces -/

inductive ReqFlow where
  | submit
  | confirm
deriving DecidableEq, Repr

/-- The JSON bodies the first handler variant can respond with. -/
inductive RespBody where
  | errorB (msg : String)
  | submitOk (paymentRequired : Bool) (payment : Option CreatedIntent)
  | confirmOk (payment : Option (JSVal × String)) (mailError : Bool)
deriving DecidableEq, Repr

structure Response where
  status : Nat
  body : RespBody
deriving DecidableEq, Repr

/-- Which collaborators a request invoked, and which flow it took. -/
structure Trace where
  validatorInvoked : Bool := false
  createInvoked : Bool := false
  retrieveInvoked : Bool := false
  notifierInvoked : Bool := false
  sendMailInvoked : Bool := false
  flow : Option ReqFlow := none
deriving DecidableEq, Repr

/-! ## Confirm flow (`handleConfirmAction`, `send-booking.js` lines 157-180) -/

/-- `sendNotificationEmail` control flow (lines 110-135): a no-op when no
transporter is configured, otherwise one `sendMail` attempt whose outcome the
oracle supplies. Returns whether `sendMail` was invoked, and its outcome. -/
def sendNotificationEmail (cfg : Config) (w : World) : Bool × Except Unit Unit :=
  if cfg.canSendMail then (true, w.mailResult) else (false, Except.ok ())

/-- `handleConfirmAction`: optional intent retrieval, paymentStatus fallback,
one notification attempt, then a 200 response. Also returns the payload as
mutated by the flow (the one handed to the Notifier). -/
def handleConfirmAction (cfg : Config) (w : World) (p : Payload) :
    Response × Trace × Payload :=
  let doRetrieve := p.paymentIntentId.truthy && stripePresent cfg.secretEnv
  let step1 : Option (JSVal × String) × Payload :=
    if doRetrieve then
      match w.retrieveResult with
      | Except.ok intent =>
          (some (JSVal.vStr intent.id, intent.status),
           { p with paymentStatus := JSVal.vStr intent.status })
      | Except.error _ => (some (p.paymentIntentId, "unknown"), p)
    else (none, p)
  let payment := step1.1
  let p1 := step1.2
  let defaultStatus : String :=
    if cfg.paymentRequired then "payment-pending" else "not-charged"
  let p2 :=
    if p1.paymentStatus.truthy then p1
    else { p1 with paymentStatus := JSVal.vStr defaultStatus }
  let mail := sendNotificationEmail cfg w
  let mailErr := match mail.2 with | Except.ok _ => false | Except.error _ => true
  (⟨200, RespBody.confirmOk payment mailErr⟩,
   { validatorInvoked := false, createInvoked := false,
     retrieveInvoked := doRetrieve, notifierInvoked := true,
     sendMailInvoked := mail.1, flow := some ReqFlow.confirm },
   p2)

/-! ## Body parser and handler (variant 1, `send-booking.js` lines 55-228) -/

/-- How the request body arrives: already parsed by the framework, as a raw
stream that completed with accumulated data, or as a stream that errored
(covering both the `error` event and the payload-too-large rejection, which
both reject the parse promise). -/
inductive BodyInput where
  | preparsed (p : Payload)
  | streamEnd (data : String)
  | streamError
deriving Repr

/-- `parseBody` outcome. `jp` is the `JSON.parse` oracle (an external library
call): it yields the payload record or throws. An empty completed stream
resolves to `{}` without parsing (lines 71-75). -/
def parseBodyResult (jp : String → Except Unit Payload) :
    BodyInput → Except Unit Payload
  | BodyInput.preparsed p => Except.ok p
  | BodyInput.streamEnd data =>
      if data == "" then Except.ok emptyPayload else jp data
  | BodyInput.streamError => Except.error ()

/-- The submit path of the handler (lines 202-227): validate, then
`createPaymentIntent` (a no-op returning null unless `paymentRequired`,
lines 137-140), then the 200 response. -/
def handleSubmitTail (cfg : Config) (w : World) (p : Payload) :
    Response × Trace :=
  match validateBooking p with
  | Except.error e =>
      (⟨e.1, RespBody.errorB e.2⟩,
       { validatorInvoked := true, flow := some ReqFlow.submit })
  | Except.ok _ =>
    if cfg.paymentRequired then
      match w.createResult with
      | Except.error _ =>
          (⟨500, RespBody.errorB "Unable to initiate payment"⟩,
           { validatorInvoked := true, createInvoked := true,
             flow := some ReqFlow.submit })
      | Except.ok intent =>
          (⟨200, RespBody.submitOk true (some intent)⟩,
           { validatorInvoked := true, createInvoked := true,
             flow := some ReqFlow.submit })
    else
      (⟨200, RespBody.submitOk false none⟩,
       { validatorInvoked := true, flow := some ReqFlow.submit })

/-- The default-export handler (lines 182-228): method check, body parse,
branch on `action === 'confirm'` into the confirm flow, otherwise the
submit path. -/
def handler (cfg : Config) (w : World) (jp : String → Except Unit Payload)
    (method : String) (b : BodyInput) : Response × Trace :=
  if method != "POST" then
    (⟨405, RespBody.errorB "Method not allowed"⟩, {})
  else
    match parseBodyResult jp b with
    | Except.error _ => (⟨400, RespBody.errorB "Invalid JSON body"⟩, {})
    | Except.ok p =>
      if p.action == JSVal.vStr "confirm" then
        ((handleConfirmAction cfg w p).1, (handleConfirmAction cfg w p).2.1)
      else handleSubmitTail cfg w p

/-! ## ConfigHandler (`stripe-config.js` lines 7-20) -/

/-- `(process.env.STRIPE_CURRENCY || 'usd').toLowerCase()`. -/
def currencySetting (curEnv : Option String) : String :=
  jsToLower (if envOrEmpty curEnv == "" then "usd" else envOrEmpty curEnv)

/-- The ConfigHandler's possible responses. -/
inductive ConfigResponse where
  | methodNotAllowed
  | ok (publishableKey : Option String) (paymentRequired : Bool)
      (currency : String) (depositAmount : Int)
deriving DecidableEq, Repr

/-- The `stripe-config.js` module export: 405 on non-GET, otherwise the
public payment configuration (`publishableKey || null`). -/
def stripeConfigHandler (pubEnv secretEnv curEnv depositEnv : Option String)
    (method : String) : ConfigResponse :=
  if method != "GET" then ConfigResponse.methodNotAllowed
  else ConfigResponse.ok
    (if publishableKey pubEnv == "" then none else some (publishableKey pubEnv))
    (configPaymentRequired pubEnv secretEnv depositEnv)
    (currencySetting curEnv)
    (normalizedDeposit depositEnv)

/-! ## Second handler variant (`send-booking.js` lines 250-441)

The same file carries an alternative module export (after the header comment
block) with its own body reader, inline validation, per-request amount and
currency, and Gmail transport. -/

/-- `Number(s)` on a string, restricted to integer literals: a trimmed
optional sign followed only by decimal digits; the empty or all-whitespace
string is 0; anything else is modelled as NaN. (Fractional literals are
outside the integer value model; the handler rejects every non-integer
amount anyway through its `isFinite`/rounding checks.) -/
def jsNumberOfString (s : String) : JSVal :=
  match (jsTrim s).toList with
  | [] => JSVal.vNum 0
  | '-' :: rest =>
      if !rest.isEmpty && rest.all Char.isDigit then
        JSVal.vNum (-(digitsVal rest : Int))
      else JSVal.vNaN
  | '+' :: rest =>
      if !rest.isEmpty && rest.all Char.isDigit then
        JSVal.vNum (digitsVal rest : Int)
      else JSVal.vNaN
  | cs =>
      if cs.all Char.isDigit then JSVal.vNum (digitsVal cs : Int)
      else JSVal.vNaN

/-- `typeof amount === 'string' && amount.trim() !== '' ? Number(amount) : amount`. -/
def amountValue (a : JSVal) : JSVal :=
  match a with
  | JSVal.vStr s => if jsTrim s != "" then jsNumberOfString s else JSVal.vStr s
  | v => v

/-- `Number.isFinite`: true only for values of number type that are finite;
no coercion, so NaN and every non-number are false. -/
def jsIsFinite : JSVal → Bool
  | JSVal.vNum _ => true
  | _ => false

/-- `typeof currency === 'string' ? currency.trim().toLowerCase() : null`. -/
def normalizedCurrency (c : JSVal) : Option String :=
  match c with
  | JSVal.vStr s => some (jsToLower (jsTrim s))
  | _ => none

/-- The `/^[a-z]{3}$/` test. -/
def validCurrencyCode (s : String) : Bool :=
  s.length == 3 && s.toList.all (fun c => 'a' ≤ c && c ≤ 'z')

/-- Environment read by the second handler variant. -/
structure Env2 where
  stripeSecretEnv : Option String
  emailUserEnv : Option String
  emailPassEnv : Option String
  receiverEnv : Option String
deriving DecidableEq, Repr

/-- `getStripe()` returns a client iff `process.env.STRIPE_SECRET_KEY` is
truthy. -/
def stripePresent2 (env : Env2) : Bool := envOrEmpty env.stripeSecretEnv != ""

/-- Oracle outcomes for the second variant's collaborators. -/
structure World2 where
  createResult : Except Unit CreatedIntent
  mailResult : Except Unit Unit
deriving Repr

/-- The `payment` field of the second variant's success responses:
`{enabled:false}` or `{enabled:true, clientSecret, paymentIntentId}`. -/
inductive Payment2 where
  | disabled
  | enabled (clientSecret : String) (paymentIntentId : String)
deriving DecidableEq, Repr

/-- Bodies of the second variant's responses. `received` also carries the
fixed message `No email credentials configured` in the source. -/
inductive Resp2Body where
  | noBody
  | textBody (s : String)
  | errorB (msg : String)
  | sent (payment : Payment2)
  | received (payment : Payment2)
deriving DecidableEq, Repr

structure Response2 where
  status : Nat
  body : Resp2Body
deriving DecidableEq, Repr

structure Trace2 where
  createInvoked : Bool := false
  sendMailInvoked : Bool := false
deriving DecidableEq, Repr

/-- How the second variant's body arrives: framework-parsed object,
framework-provided string, or a raw stream read to completion. -/
inductive BodyInput2 where
  | preparsed (p : Payload)
  | bodyString (s : String)
  | streamed (raw : String)
deriving Repr

/-- `readJsonBody`: object bodies pass through; string or streamed bodies are
JSON-parsed (`Invalid JSON body` on parse failure); an empty streamed body
is the error `Request body is empty`. -/
def readJsonBody (jp : String → Except Unit Payload) :
    BodyInput2 → Except String Payload
  | BodyInput2.preparsed p => Except.ok p
  | BodyInput2.bodyString s =>
      match jp s with
      | Except.ok p => Except.ok p
      | Except.error _ => Except.error "Invalid JSON body"
  | BodyInput2.streamed raw =>
      if raw == "" then Except.error "Request body is empty"
      else
        match jp raw with
        | Except.ok p => Except.ok p
        | Except.error _ => Except.error "Invalid JSON body"

/-- Final section of the second variant (lines 397-440): with SMTP
credentials, one `sendMail` attempt — success responds `200 {status:'sent'}`,
failure responds `500 {error:'Failed to send email'}`; without credentials,
`200 {status:'received'}` with no send attempted. -/
def emailSection (env : Env2) (w : World2) (payment : Payment2) (t : Trace2) :
    Response2 × Trace2 :=
  if envOrEmpty env.emailUserEnv != "" && envOrEmpty env.emailPassEnv != "" then
    match w.mailResult with
    | Except.ok _ => (⟨200, Resp2Body.sent payment⟩, { t with sendMailInvoked := true })
    | Except.error _ =>
        (⟨500, Resp2Body.errorB "Failed to send email"⟩,
         { t with sendMailInvoked := true })
  else (⟨200, Resp2Body.received payment⟩, t)

/-- The second variant's module export (lines 300-441): CORS preflight,
method check, body read, inline required-field validation (message
included), optional per-request payment-intent creation, then the email
section. -/
def handler2 (env : Env2) (w : World2) (jp : String → Except Unit Payload)
    (method : String) (b : BodyInput2) : Response2 × Trace2 :=
  if method == "OPTIONS" then (⟨204, Resp2Body.noBody⟩, {})
  else if method != "POST" then (⟨405, Resp2Body.textBody "Method Not Allowed"⟩, {})
  else
    match readJsonBody jp b with
    | Except.error msg => (⟨400, Resp2Body.errorB msg⟩, {})
    | Except.ok d =>
      if !(d.name.truthy && d.email.truthy && d.phone.truthy &&
           d.checkIn.truthy && d.checkOut.truthy && d.guests.truthy &&
           d.message.truthy) then
        (⟨400, Resp2Body.errorB "Missing required fields"⟩, {})
      else if stripePresent2 env then
        match amountValue d.amount with
        | JSVal.vNum n =>
          if n ≤ 0 then (⟨400, Resp2Body.errorB "Invalid payment amount"⟩, {})
          else
            match normalizedCurrency d.currency with
            | none => (⟨400, Resp2Body.errorB "Invalid currency code"⟩, {})
            | some c =>
              if !validCurrencyCode c then
                (⟨400, Resp2Body.errorB "Invalid currency code"⟩, {})
              else
                match w.createResult with
                | Except.error _ =>
                    (⟨502, Resp2Body.errorB "Failed to initiate payment"⟩,
                     { createInvoked := true })
                | Except.ok intent =>
                    emailSection env w
                      (Payment2.enabled intent.client_secret intent.id)
                      { createInvoked := true }
        | _ => (⟨400, Resp2Body.errorB "Invalid payment amount"⟩, {})
      else emailSection env w Payment2.disabled {}

/-! ## Response projections and concrete inputs used by the theorems -/

/-- Whether a response body of the first variant carries `success: true`. -/
def RespBody.isSuccess : RespBody → Bool
  | RespBody.errorB _ => false
  | RespBody.submitOk _ _ => true
  | RespBody.confirmOk _ _ => true

/-- The `payment` field of a confirm-flow response body, when the body is a
confirm-flow success. -/
def RespBody.confirmPayment : RespBody → Option (Option (JSVal × String))
  | RespBody.confirmOk pay _ => some pay
  | _ => none

/-- A payload whose six required fields are all present and non-blank except
that `guests` is the number 0. -/
def pGuestsZero : Payload :=
  { name := JSVal.vStr "Ana", email := JSVal.vStr "ana@mail.test",
    phone := JSVal.vStr "555", checkIn := JSVal.vStr "2026-01-01",
    checkOut := JSVal.vStr "2026-01-05", guests := JSVal.vNum 0 }

/-- A payload with a blank `email`, no `guests`, and the other four required
fields present. -/
def pBlankEmailNoGuests : Payload :=
  { name := JSVal.vStr "Ana", email := JSVal.vStr "",
    phone := JSVal.vStr "555", checkIn := JSVal.vStr "2026-01-01",
    checkOut := JSVal.vStr "2026-01-05" }

/-- A complete valid submit payload (guests 1). -/
def pGuestsZeroOne : Payload :=
  { name := JSVal.vStr "Ana", email := JSVal.vStr "ana@mail.test",
    phone := JSVal.vStr "555", checkIn := JSVal.vStr "2026-01-01",
    checkOut := JSVal.vStr "2026-01-05", guests := JSVal.vNum 1 }

/-- A confirm-action payload carrying payment intent id "pi_9". -/
def pConfirmPi9 : Payload :=
  { action := JSVal.vStr "confirm", paymentIntentId := JSVal.vStr "pi_9" }

/-- A confirm-action payload carrying payment intent id "pi_1". -/
def pConfirmPi1 : Payload :=
  { action := JSVal.vStr "confirm", paymentIntentId := JSVal.vStr "pi_1" }

/-- A configuration with a secret key set but deposit 0 (payment disabled). -/
def cfgSecretNoDeposit : Config := ⟨some "sk_live_1", none, some "0", false⟩

/-- A world whose retrieval oracle succeeds with a succeeded intent. -/
def wRetrieveOk : World :=
  ⟨Except.error (), Except.ok ⟨"pi_1", "succeeded"⟩, Except.ok ()⟩

/-- A second-variant environment with SMTP credentials and no Stripe key. -/
def env2Creds : Env2 := ⟨none, some "user", some "pass", none⟩

/-- A second-variant environment with neither a Stripe key nor SMTP
credentials. -/
def env2NoServices : Env2 := ⟨none, none, none, none⟩

/-- A payload with all seven of the second variant's fields truthy but whose
`name` is the whitespace-only string " " (truthy, yet trims to empty). -/
def pWhitespaceName : Payload :=
  { name := JSVal.vStr " ", email := JSVal.vStr "ana@mail.test",
    phone := JSVal.vStr "555", checkIn := JSVal.vStr "2026-01-01",
    checkOut := JSVal.vStr "2026-01-05", guests := JSVal.vNum 2,
    message := JSVal.vStr "hello" }

/-- A payload with all seven of the second variant's required fields present. -/
def pAllFields : Payload :=
  { name := JSVal.vStr "Ana", email := JSVal.vStr "ana@mail.test",
    phone := JSVal.vStr "555", checkIn := JSVal.vStr "2026-01-01",
    checkOut := JSVal.vStr "2026-01-05", guests := JSVal.vNum 2,
    message := JSVal.vStr "hello" }

/-! ## Reduction lemmas -/

/-- On a POST with a parsed body whose action is `confirm`, the handler runs
the confirm flow. -/
theorem handler_post_confirm (cfg : Config) (w : World)
    (jp : String → Except Unit Payload) (p : Payload)
    (hc : p.action = JSVal.vStr "confirm") :
    handler cfg w jp "POST" (BodyInput.preparsed p) =
      ((handleConfirmAction cfg w p).1, (handleConfirmAction cfg w p).2.1) := by
  simp [handler, parseBodyResult, hc]

/-- On a POST with a parsed body whose action is not `confirm`, the handler
runs the submit path. -/
theorem handler_post_submit (cfg : Config) (w : World)
    (jp : String → Except Unit Payload) (p : Payload)
    (hc : p.action ≠ JSVal.vStr "confirm") :
    handler cfg w jp "POST" (BodyInput.preparsed p) = handleSubmitTail cfg w p := by
  simp [handler, parseBodyResult, hc]

/-- Invocation trace of the confirm flow: no validation, no intent creation,
retrieval iff a truthy `paymentIntentId` and a Stripe client, one
notification attempt (reaching `sendMail` iff a transporter exists). -/
theorem handleConfirmAction_trace (cfg : Config) (w : World) (p : Payload) :
    (handleConfirmAction cfg w p).2.1 =
      { validatorInvoked := false, createInvoked := false,
        retrieveInvoked := p.paymentIntentId.truthy && stripePresent cfg.secretEnv,
        notifierInvoked := true, sendMailInvoked := cfg.canSendMail,
        flow := some ReqFlow.confirm } := by
  unfold handleConfirmAction sendNotificationEmail
  cases cfg.canSendMail <;>
    cases h : (p.paymentIntentId.truthy && stripePresent cfg.secretEnv) <;>
    simp [h]

/-- The confirm flow always responds 200. -/
theorem handleConfirmAction_status (cfg : Config) (w : World) (p : Payload) :
    (handleConfirmAction cfg w p).1.status = 200 := by
  unfold handleConfirmAction sendNotificationEmail
  simp

/-- Invocation trace of the submit path: validation always runs, intent
creation runs iff validation passes and payment is required; neither
retrieval nor notification happens. -/
theorem handleSubmitTail_trace (cfg : Config) (w : World) (p : Payload) :
    (handleSubmitTail cfg w p).2 =
      { validatorInvoked := true,
        createInvoked := ((missingFields p).isEmpty && cfg.paymentRequired),
        retrieveInvoked := false, notifierInvoked := false,
        sendMailInvoked := false, flow := some ReqFlow.submit } := by
  unfold handleSubmitTail validateBooking
  by_cases he : (missingFields p).isEmpty
  · simp only [he, if_true]
    cases hpr : cfg.paymentRequired
    · simp [hpr]
    · cases w.createResult <;> simp [hpr]
  · simp [he]

/-- The confirm flow does not change the booking fields of the payload handed
to the Notifier (only `paymentStatus` can be set). -/
theorem handleConfirmAction_payload_fields (cfg : Config) (w : World) (p : Payload) :
    (handleConfirmAction cfg w p).2.2.name = p.name ∧
    (handleConfirmAction cfg w p).2.2.email = p.email ∧
    (handleConfirmAction cfg w p).2.2.phone = p.phone ∧
    (handleConfirmAction cfg w p).2.2.checkIn = p.checkIn ∧
    (handleConfirmAction cfg w p).2.2.checkOut = p.checkOut ∧
    (handleConfirmAction cfg w p).2.2.guests = p.guests := by
  unfold handleConfirmAction
  cases hr : (p.paymentIntentId.truthy && stripePresent cfg.secretEnv) <;>
    simp only [hr, Bool.false_eq_true, if_false, if_true, reduceIte] <;>
    (try cases w.retrieveResult) <;>
    (try split) <;> simp

/-- The confirm flow's response body always carries `success: true`. -/
theorem handleConfirmAction_body_success (cfg : Config) (w : World) (p : Payload) :
    (handleConfirmAction cfg w p).1.body.isSuccess = true := by
  unfold handleConfirmAction
  simp [RespBody.isSuccess]

/-- If the submit path invoked intent creation, payment was required. -/
theorem handleSubmitTail_create_implies (cfg : Config) (w : World) (p : Payload)
    (h : (handleSubmitTail cfg w p).2.createInvoked = true) :
    cfg.paymentRequired = true := by
  rw [handleSubmitTail_trace] at h
  simpa using (Bool.and_elim_right h)

/-- The second variant's email section never produces the field-validation
failure response. -/
theorem emailSection_ne_missingFields (env : Env2) (w : World2)
    (payment : Payment2) (t : Trace2) :
    (emailSection env w payment t).1 ≠
      ⟨400, Resp2Body.errorB "Missing required fields"⟩ := by
  unfold emailSection
  split
  · cases w.mailResult <;> simp
  · simp

/-! ## Claims -/

/-- C1, counterexample: with a secret key and a positive deposit but no
publishable key, the ConfigHandler computes `paymentRequired = false` while
the BookingHandler computes `paymentRequired = true`, so the two handlers do
not report the same value and the BookingHandler's value is not
(secret AND publishable AND deposit positive). -/
theorem C1_counterexample :
    configPaymentRequired none (some "sk_test_123") (some "1500") = false ∧
    bookingPaymentRequired (some "sk_test_123") (some "1500") = true := by
  decide

/-- C1, amended: the ConfigHandler's `paymentRequired` equals the
BookingHandler's value conjoined with the presence of the publishable key;
hence the ConfigHandler's value implies the BookingHandler's, and the two
agree exactly when the publishable key is present or the BookingHandler's
value is already false. They differ precisely on configurations with a
secret key and positive deposit but no publishable key. -/
theorem C1_amended_paymentRequired (pubEnv secretEnv depositEnv : Option String) :
    (configPaymentRequired pubEnv secretEnv depositEnv
        = (publishableKey pubEnv != "" && bookingPaymentRequired secretEnv depositEnv)) ∧
    (configPaymentRequired pubEnv secretEnv depositEnv = true →
      bookingPaymentRequired secretEnv depositEnv = true) ∧
    (configPaymentRequired pubEnv secretEnv depositEnv
        = bookingPaymentRequired secretEnv depositEnv ↔
      (publishableKey pubEnv != "") = true ∨
        bookingPaymentRequired secretEnv depositEnv = false) := by
  simp only [configPaymentRequired, bookingPaymentRequired, stripePresent]
  cases publishableKey pubEnv != "" <;>
    cases stripeSecretKey secretEnv != "" <;>
    cases decide (normalizedDeposit depositEnv > 0) <;> simp

/-- C1, witness: with both keys present and deposit 1500 the amended theorem
yields agreement of the two handlers. -/
theorem C1_amended_witness :
    configPaymentRequired (some "pk") (some "sk") (some "1500") =
      bookingPaymentRequired (some "sk") (some "1500") :=
  ((C1_amended_paymentRequired (some "pk") (some "sk") (some "1500")).2.2).mpr
    (Or.inl (by decide))

/-- C2, counterexample: the claim fails against both cited validations. In
`validateBooking`, the value 0 for `guests` is present and its string form
"0" does not trim to empty, yet it is reported missing. In the second
variant's inline check, a payload satisfying all six of the claim's required
fields is rejected because `message` is absent — with the generic error
`Missing required fields` naming no field — while a payload whose `name` is
the whitespace-only string " " (which trims to empty, so the claim calls it
missing) passes validation and gets a 200. -/
theorem C2_counterexample :
    missingFields pGuestsZero = ["guests"] ∧
    pGuestsZero.guests ≠ JSVal.vUndefined ∧
    jsTrim pGuestsZero.guests.jsToString ≠ "" ∧
    (handler2 env2NoServices ⟨Except.error (), Except.ok ()⟩
        (fun _ => Except.error ()) "POST"
        (BodyInput2.preparsed pGuestsZeroOne)).1 =
      ⟨400, Resp2Body.errorB "Missing required fields"⟩ ∧
    jsTrim pWhitespaceName.name.jsToString = "" ∧
    (handler2 env2NoServices ⟨Except.error (), Except.ok ()⟩
        (fun _ => Except.error ()) "POST"
        (BodyInput2.preparsed pWhitespaceName)).1 =
      ⟨200, Resp2Body.received Payment2.disabled⟩ := by
  refine ⟨by decide, by decide, by decide, by decide, by decide, by decide⟩

/-- C2, amended: in the primary Validator (`validateBooking`) exactly the six
fields name, email, phone, checkIn, checkOut, guests are required (message
never is), a field counts as missing iff its value is JavaScript-falsy or its
string form trims to the empty string, and on failure the error lists every
missing field name joined by commas. In the second variant's inline
validation, `message` is additionally required: the validation 400 is
returned iff the conjunction of the seven fields' truthiness fails — a
falsy-only test with no trimming, answered by the fixed text
`Missing required fields` that names no field. -/
theorem C2_amended_validator (p : Payload) (f : String) (env : Env2)
    (w2 : World2) (jp : String → Except Unit Payload) :
    (f ∈ missingFields p ↔ f ∈ requiredFields ∧
        ((p.get f).truthy = false ∨ jsTrim (p.get f).jsToString = "")) ∧
    "message" ∉ missingFields p ∧
    (validateBooking p = Except.ok () ↔ missingFields p = []) ∧
    (missingFields p ≠ [] → validateBooking p = Except.error
      (400, "Missing required fields: " ++
        String.intercalate ", " (missingFields p))) ∧
    ((handler2 env w2 jp "POST" (BodyInput2.preparsed p)).1 =
        ⟨400, Resp2Body.errorB "Missing required fields"⟩ ↔
      (p.name.truthy && p.email.truthy && p.phone.truthy && p.checkIn.truthy &&
        p.checkOut.truthy && p.guests.truthy && p.message.truthy) = false) := by
  refine ⟨?_, ?_, ?_, ?_, ?_⟩
  · simp [missingFields, List.mem_filter]
  · intro h
    exact absurd (List.mem_filter.mp h).1 (by decide)
  · unfold validateBooking
    split
    case isTrue h => simp_all [List.isEmpty_iff]
    case isFalse h => simp_all [List.isEmpty_iff]
  · intro hne
    unfold validateBooking
    rw [if_neg]
    simp [List.isEmpty_iff, hne]
  · unfold handler2 readJsonBody
    by_cases hv : (p.name.truthy && p.email.truthy && p.phone.truthy &&
        p.checkIn.truthy && p.checkOut.truthy && p.guests.truthy &&
        p.message.truthy) = true
    · simp only [hv, Bool.not_true, Bool.true_eq_false, iff_false]
      simp only [show ((("POST" : String) == "OPTIONS") = false) from by decide]
      simp only [show ((("POST" : String) != "POST") = false) from by decide]
      simp only [Bool.false_eq_true, if_false, reduceIte]
      split
      · split
        · split
          · simp
          · split
            · simp
            · split
              · simp
              · split
                · simp
                · exact emailSection_ne_missingFields env w2 _ _
        · simp
      · exact emailSection_ne_missingFields env w2 _ _
    · have hv2 : (p.name.truthy && p.email.truthy && p.phone.truthy &&
          p.checkIn.truthy && p.checkOut.truthy && p.guests.truthy &&
          p.message.truthy) = false := by
        revert hv
        cases (p.name.truthy && p.email.truthy && p.phone.truthy &&
          p.checkIn.truthy && p.checkOut.truthy && p.guests.truthy &&
          p.message.truthy) <;> simp
      simp [hv2]

/-- C2, witness: a payload with a blank email and no guests fails the primary
validation with a message naming both fields, and fails the second variant's
validation with the generic message. -/
theorem C2_amended_witness :
    validateBooking pBlankEmailNoGuests =
      Except.error (400, "Missing required fields: email, guests") ∧
    (handler2 env2NoServices ⟨Except.error (), Except.ok ()⟩
        (fun _ => Except.error ()) "POST"
        (BodyInput2.preparsed pBlankEmailNoGuests)).1 =
      ⟨400, Resp2Body.errorB "Missing required fields"⟩ := by
  have h := C2_amended_validator pBlankEmailNoGuests "email" env2NoServices
    ⟨Except.error (), Except.ok ()⟩ (fun _ => Except.error ())
  exact ⟨(h.2.2.2.1 (by decide)).trans (by rfl), h.2.2.2.2.mpr (by decide)⟩

/-- C3, counterexample: in the second handler variant, the same request that
responds 200 when the notification email succeeds responds 500
`Failed to send email` when the send fails — a mail failure does change the
HTTP status to a 5xx there. -/
theorem C3_counterexample :
    (handler2 env2Creds ⟨Except.error (), Except.ok ()⟩ (fun _ => Except.error ())
        "POST" (BodyInput2.preparsed pAllFields)).1.status = 200 ∧
    (handler2 env2Creds ⟨Except.error (), Except.error ()⟩ (fun _ => Except.error ())
        "POST" (BodyInput2.preparsed pAllFields)).1 =
      ⟨500, Resp2Body.errorB "Failed to send email"⟩ ∧
    (handler2 env2Creds ⟨Except.error (), Except.error ()⟩ (fun _ => Except.error ())
        "POST" (BodyInput2.preparsed pAllFields)).2.sendMailInvoked = true := by
  refine ⟨by decide, by decide, by decide⟩

/-- C3, amended: in the first variant's confirm flow a mail failure never
changes the HTTP status — the response is still 200 and identical to the
successful-send response except that `mailError` is recorded; but in the
second handler variant a mail failure yields 500 `Failed to send email`. -/
theorem C3_amended_mailFailure (cfg : Config) (w : World) (p : Payload)
    (env : Env2) (w2 : World2) (payment : Payment2) (t : Trace2)
    (hm : cfg.canSendMail = true) (hw : w.mailResult = Except.error ())
    (hu : envOrEmpty env.emailUserEnv ≠ "") (hp : envOrEmpty env.emailPassEnv ≠ "")
    (h2 : w2.mailResult = Except.error ()) :
    (handleConfirmAction cfg w p).1.status = 200 ∧
    (handleConfirmAction cfg w p).1.status =
      (handleConfirmAction cfg { w with mailResult := Except.ok () } p).1.status ∧
    (∀ pay : Option (JSVal × String),
      (handleConfirmAction cfg w p).1.body = RespBody.confirmOk pay true ↔
      (handleConfirmAction cfg { w with mailResult := Except.ok () } p).1.body =
        RespBody.confirmOk pay false) ∧
    (emailSection env w2 payment t).1 =
      ⟨500, Resp2Body.errorB "Failed to send email"⟩ := by
  refine ⟨handleConfirmAction_status cfg w p, ?_, ?_, ?_⟩
  · rw [handleConfirmAction_status, handleConfirmAction_status]
  · intro pay
    unfold handleConfirmAction sendNotificationEmail
    simp [hm, hw]
  · unfold emailSection
    simp [hu, hp, h2]

/-- C3, witness: the confirm flow of the first variant responds 200 at a
concrete configuration whose mail send fails. -/
theorem C3_amended_witness :
    (handleConfirmAction ⟨none, none, none, true⟩
        ⟨Except.error (), Except.error (), Except.error ()⟩ emptyPayload).1.status =
      200 :=
  (C3_amended_mailFailure ⟨none, none, none, true⟩
    ⟨Except.error (), Except.error (), Except.error ()⟩ emptyPayload
    env2Creds ⟨Except.error (), Except.error ()⟩ Payment2.disabled {}
    (by rfl) (by rfl) (by decide) (by decide) (by rfl)).1

/-- C4 (confirmed): a confirm-flow request with a truthy `paymentIntentId`
and a Stripe client whose retrieval throws still responds 200; the payment
field of the response is the given id with status "unknown"; the retrieval
step leaves `paymentStatus` unset so the default fallback then applies; and
the notification is still attempted. -/
theorem C4_retrieveFailure (cfg : Config) (w : World)
    (jp : String → Except Unit Payload) (p : Payload)
    (hc : p.action = JSVal.vStr "confirm")
    (hid : p.paymentIntentId.truthy = true)
    (hs : stripePresent cfg.secretEnv = true)
    (hthrow : w.retrieveResult = Except.error ())
    (hps : p.paymentStatus.truthy = false) :
    (handler cfg w jp "POST" (BodyInput.preparsed p)).1.status = 200 ∧
    (handler cfg w jp "POST" (BodyInput.preparsed p)).1.body.confirmPayment =
      some (some (p.paymentIntentId, "unknown")) ∧
    (handleConfirmAction cfg w p).2.2.paymentStatus =
      JSVal.vStr (if cfg.paymentRequired then "payment-pending" else "not-charged") ∧
    (handler cfg w jp "POST" (BodyInput.preparsed p)).2.notifierInvoked = true := by
  rw [handler_post_confirm cfg w jp p hc]
  refine ⟨by simpa using handleConfirmAction_status cfg w p, ?_, ?_, ?_⟩
  · unfold handleConfirmAction
    simp [hid, hs, hthrow, RespBody.confirmPayment]
  · unfold handleConfirmAction
    simp [hid, hs, hthrow, hps]
  · simp [handleConfirmAction_trace]

/-- C4, witness: at a concrete configuration with a failing retrieval, the
response's payment field is the given id with status "unknown". -/
theorem C4_witness :
    (handler ⟨some "sk", none, some "1500", false⟩
        ⟨Except.error (), Except.error (), Except.ok ()⟩ (fun _ => Except.error ())
        "POST" (BodyInput.preparsed pConfirmPi9)).1.body.confirmPayment =
      some (some (JSVal.vStr "pi_9", "unknown")) :=
  (C4_retrieveFailure ⟨some "sk", none, some "1500", false⟩
    ⟨Except.error (), Except.error (), Except.ok ()⟩ (fun _ => Except.error ())
    pConfirmPi9 (by rfl) (by rfl) (by rfl) (by rfl) (by rfl)).2.1

/-- C5, counterexample: in the second variant's body reader an empty streamed
body is an error, not the empty record — the handler responds 400
`Request body is empty`. -/
theorem C5_counterexample :
    readJsonBody (fun _ => Except.error ()) (BodyInput2.streamed "") =
      Except.error "Request body is empty" ∧
    (handler2 ⟨none, none, none, none⟩ ⟨Except.error (), Except.ok ()⟩
        (fun _ => Except.error ()) "POST" (BodyInput2.streamed "")).1 =
      ⟨400, Resp2Body.errorB "Request body is empty"⟩ :=
  ⟨rfl, by decide⟩

/-- C5, amended: in the first variant's body parser an empty completed stream
parses to the empty record and malformed JSON makes the handler respond 400
`Invalid JSON body`; in the second variant's reader an empty streamed body is
instead the 400 error `Request body is empty`, while a non-empty malformed
body is still the 400 error `Invalid JSON body`. -/
theorem C5_amended_bodyParsing (cfg : Config) (w : World) (env : Env2)
    (w2 : World2) (jp : String → Except Unit Payload) (data : String)
    (hne : data ≠ "") (hbad : jp data = Except.error ()) :
    parseBodyResult jp (BodyInput.streamEnd "") = Except.ok emptyPayload ∧
    parseBodyResult jp (BodyInput.streamEnd data) = jp data ∧
    (handler cfg w jp "POST" (BodyInput.streamEnd data)).1 =
      ⟨400, RespBody.errorB "Invalid JSON body"⟩ ∧
    readJsonBody jp (BodyInput2.streamed "") =
      Except.error "Request body is empty" ∧
    (handler2 env w2 jp "POST" (BodyInput2.streamed "")).1 =
      ⟨400, Resp2Body.errorB "Request body is empty"⟩ ∧
    (handler2 env w2 jp "POST" (BodyInput2.streamed data)).1 =
      ⟨400, Resp2Body.errorB "Invalid JSON body"⟩ := by
  refine ⟨rfl, ?_, ?_, rfl, ?_, ?_⟩
  · simp [parseBodyResult, hne]
  · unfold handler parseBodyResult
    simp [hne, hbad]
  · unfold handler2 readJsonBody
    simp
  · unfold handler2 readJsonBody
    simp [hne, hbad]

/-- C5, witness: a concrete malformed body yields 400 `Invalid JSON body`
from the first variant's handler. -/
theorem C5_amended_witness :
    (handler ⟨none, none, none, false⟩
        ⟨Except.error (), Except.error (), Except.ok ()⟩ (fun _ => Except.error ())
        "POST" (BodyInput.streamEnd "not json")).1 =
      ⟨400, RespBody.errorB "Invalid JSON body"⟩ :=
  (C5_amended_bodyParsing ⟨none, none, none, false⟩
    ⟨Except.error (), Except.error (), Except.ok ()⟩ ⟨none, none, none, none⟩
    ⟨Except.error (), Except.ok ()⟩ (fun _ => Except.error ()) "not json"
    (by decide) (by rfl)).2.2.1

/-- C6 (confirmed): with payment disabled (no secret key, or a deposit
normalizing to 0), a submit-flow POST never invokes intent creation, and
when validation passes the response is 200 with `payment: null` and
`paymentRequired: false`. -/
theorem C6_paymentDisabled (cfg : Config) (w : World)
    (jp : String → Except Unit Payload) (p : Payload)
    (hdis : stripePresent cfg.secretEnv = false ∨ normalizedDeposit cfg.depositEnv = 0)
    (hsub : p.action ≠ JSVal.vStr "confirm") :
    (handler cfg w jp "POST" (BodyInput.preparsed p)).2.createInvoked = false ∧
    (missingFields p = [] →
      (handler cfg w jp "POST" (BodyInput.preparsed p)).1 =
        ⟨200, RespBody.submitOk false none⟩) := by
  have hpr : cfg.paymentRequired = false := by
    unfold Config.paymentRequired bookingPaymentRequired
    rcases hdis with h | h
    · simp [h]
    · simp [h]
  rw [handler_post_submit cfg w jp p hsub]
  constructor
  · simp [handleSubmitTail_trace, hpr]
  · intro hm
    have hok : validateBooking p = Except.ok () := by
      unfold validateBooking
      simp [hm]
    unfold handleSubmitTail
    simp [hok, hpr]

/-- C6, witness: a valid submit payload under a configuration with no secret
key gets 200 with `payment: null`. -/
theorem C6_witness :
    (handler ⟨none, none, some "1500", false⟩
        ⟨Except.error (), Except.error (), Except.ok ()⟩ (fun _ => Except.error ())
        "POST" (BodyInput.preparsed pGuestsZeroOne)).1 =
      ⟨200, RespBody.submitOk false none⟩ :=
  (C6_paymentDisabled ⟨none, none, some "1500", false⟩
    ⟨Except.error (), Except.error (), Except.ok ()⟩ (fun _ => Except.error ())
    pGuestsZeroOne (Or.inl (by decide)) (by decide)).2 (by decide)

/-- C7, counterexample: under a configuration with the secret key set but a
zero deposit, `paymentRequired` is false and yet a confirm request carrying a
payment intent id does trigger a retrieval — the confirm flow gates the
processor call on the Stripe client, not on `paymentRequired`. -/
theorem C7_counterexample :
    cfgSecretNoDeposit.paymentRequired = false ∧
    (handler cfgSecretNoDeposit wRetrieveOk (fun _ => Except.error ()) "POST"
        (BodyInput.preparsed pConfirmPi1)).2.retrieveInvoked = true := by
  refine ⟨by decide, by decide⟩

/-- C7, amended: intent creation is only invoked when `paymentRequired` is
true, but intent retrieval in the confirm flow is invoked exactly when the
payload's action is `confirm`, its `paymentIntentId` is truthy and the secret
key is present — regardless of `paymentRequired`. -/
theorem C7_amended_gateway (cfg : Config) (w : World)
    (jp : String → Except Unit Payload) (method : String) (b : BodyInput)
    (p : Payload) :
    ((handler cfg w jp method b).2.createInvoked = true →
      cfg.paymentRequired = true) ∧
    ((handler cfg w jp "POST" (BodyInput.preparsed p)).2.retrieveInvoked =
      (p.action == JSVal.vStr "confirm" && p.paymentIntentId.truthy &&
        stripePresent cfg.secretEnv)) := by
  constructor
  · intro h
    revert h
    unfold handler
    split
    · simp
    · split
      · simp
      · split
        · rw [show ((handleConfirmAction cfg w _).1,
              (handleConfirmAction cfg w _).2.1).2 =
              (handleConfirmAction cfg w _).2.1 from rfl]
          rw [handleConfirmAction_trace]
          simp
        · exact handleSubmitTail_create_implies cfg w _
  · by_cases hc : p.action = JSVal.vStr "confirm"
    · rw [handler_post_confirm cfg w jp p hc]
      simp [handleConfirmAction_trace, hc]
    · rw [handler_post_submit cfg w jp p hc]
      simp [handleSubmitTail_trace, hc]

/-- C7, witness: a submit request at a concrete configuration performs no
retrieval. -/
theorem C7_amended_witness :
    (handler ⟨none, none, none, false⟩
        ⟨Except.error (), Except.error (), Except.ok ()⟩ (fun _ => Except.error ())
        "POST" (BodyInput.preparsed emptyPayload)).2.retrieveInvoked = false := by
  have h := (C7_amended_gateway ⟨none, none, none, false⟩
    ⟨Except.error (), Except.error (), Except.ok ()⟩ (fun _ => Except.error ())
    "POST" (BodyInput.preparsed emptyPayload) emptyPayload).2
  simpa using h

/-- C8 (confirmed): the resolver parses the deposit setting as an integer and
coerces a NaN or non-positive result to 0, never failing; "1500" resolves to
1500 while "-5", "abc" and an absent value resolve to 0. -/
theorem C8_depositNormalization (depositEnv : Option String) :
    (∀ d : Int, depositAmount depositEnv = some d →
      normalizedDeposit depositEnv = if 0 < d then d else 0) ∧
    (depositAmount depositEnv = none → normalizedDeposit depositEnv = 0) ∧
    0 ≤ normalizedDeposit depositEnv ∧
    normalizedDeposit (some "1500") = 1500 ∧
    normalizedDeposit (some "-5") = 0 ∧
    normalizedDeposit (some "abc") = 0 ∧
    normalizedDeposit none = 0 := by
  refine ⟨?_, ?_, ?_, by decide, by decide, by decide, by decide⟩
  · intro d hd
    simp [normalizedDeposit, hd]
  · intro hd
    simp [normalizedDeposit, hd]
  · unfold normalizedDeposit
    split
    · split <;> omega
    · omega

/-- C8, witness: "7" parses to 7 and stays 7 after normalization. -/
theorem C8_deposit_witness : normalizedDeposit (some "7") = 7 := by
  have h := (C8_depositNormalization (some "7")).1 7 (by rfl)
  simpa using h

/-- C9 (confirmed): a POST whose parsed body has action `confirm` never
invokes the Validator; it is answered 200 with a success body even for a
payload with every required field absent or blank, the notification is still
attempted, and the booking fields are handed to the Notifier unchanged. -/
theorem C9_confirmSkipsValidator (cfg : Config) (w : World)
    (jp : String → Except Unit Payload) (p : Payload)
    (hc : p.action = JSVal.vStr "confirm") :
    (handler cfg w jp "POST" (BodyInput.preparsed p)).2.validatorInvoked = false ∧
    (handler cfg w jp "POST" (BodyInput.preparsed p)).1.status = 200 ∧
    (handler cfg w jp "POST" (BodyInput.preparsed p)).1.body.isSuccess = true ∧
    (handler cfg w jp "POST" (BodyInput.preparsed p)).2.notifierInvoked = true ∧
    (handleConfirmAction cfg w p).2.2.name = p.name ∧
    (handleConfirmAction cfg w p).2.2.email = p.email ∧
    (handleConfirmAction cfg w p).2.2.guests = p.guests := by
  rw [handler_post_confirm cfg w jp p hc]
  refine ⟨?_, ?_, ?_, ?_, ?_, ?_, ?_⟩
  · simp [handleConfirmAction_trace]
  · simpa using handleConfirmAction_status cfg w p
  · simpa using handleConfirmAction_body_success cfg w p
  · simp [handleConfirmAction_trace]
  · exact (handleConfirmAction_payload_fields cfg w p).1
  · exact (handleConfirmAction_payload_fields cfg w p).2.1
  · exact (handleConfirmAction_payload_fields cfg w p).2.2.2.2.2

/-- C9, witness: a confirm request whose other fields are all absent skips
validation. -/
theorem C9_witness :
    (handler ⟨none, none, none, true⟩ ⟨Except.error (), Except.error (), Except.ok ()⟩
        (fun _ => Except.error ()) "POST"
        (BodyInput.preparsed { action := JSVal.vStr "confirm" })).2.validatorInvoked =
      false :=
  (C9_confirmSkipsValidator ⟨none, none, none, true⟩
    ⟨Except.error (), Except.error (), Except.ok ()⟩
    (fun _ => Except.error ()) { action := JSVal.vStr "confirm" } (by rfl)).1

/-- C10 (confirmed): a POST with a parsed body takes the confirm flow iff
`action` is exactly the string "confirm", and the submit flow for every
other value of `action` — unrecognized values are not rejected. -/
theorem C10_actionBranch (cfg : Config) (w : World)
    (jp : String → Except Unit Payload) (p : Payload) :
    ((handler cfg w jp "POST" (BodyInput.preparsed p)).2.flow = some ReqFlow.confirm ↔
      p.action = JSVal.vStr "confirm") ∧
    ((handler cfg w jp "POST" (BodyInput.preparsed p)).2.flow = some ReqFlow.submit ↔
      p.action ≠ JSVal.vStr "confirm") := by
  by_cases hc : p.action = JSVal.vStr "confirm"
  · rw [handler_post_confirm cfg w jp p hc]
    simp [handleConfirmAction_trace, hc]
  · rw [handler_post_submit cfg w jp p hc]
    simp [handleSubmitTail_trace, hc]

/-- C10, witness: an unrecognized action string takes the submit flow. -/
theorem C10_witness :
    (handler ⟨none, none, none, false⟩ ⟨Except.error (), Except.error (), Except.ok ()⟩
        (fun _ => Except.error ()) "POST"
        (BodyInput.preparsed { action := JSVal.vStr "submit" })).2.flow =
      some ReqFlow.submit :=
  (C10_actionBranch ⟨none, none, none, false⟩
    ⟨Except.error (), Except.error (), Except.ok ()⟩
    (fun _ => Except.error ()) { action := JSVal.vStr "submit" }).2.mpr (by decide)
